import Mathlib

/-!
Verification development for the live-event real-time engagement engine of the
crowd_backend repository.  The definitions below are a shallow embedding of the
live-engagement request handlers (routes file: start, end, icebreakers, polls,
Q&A, photos, chat) and of the socket handler (join_event, leave_event,
disconnect, and the 30-second metrics interval), together with the mongoose
schemas in the LiveEvent model file.

Modelling conventions:
* The embedding is scoped to a single event room: the route lookups by
  `eventId` become a single optional `LiveEvent` in the state, and the
  per-`liveEventId` collections become lists of (id, entity) pairs.
* Mongo object ids become `Nat`; timestamps become a `Nat` clock value threaded
  through the operations as `now`.
* Database writes always succeed (the happy path of every `await ... .save()`);
  HTTP responses are modelled by `RouteResult` carrying the literal status code
  and message from the source; `io.to(room).emit(...)` room broadcasts are
  collected in a `List Broadcast` (direct `socket.emit` replies to the caller
  are not room broadcasts and are not collected).
* JS numbers that are only ever incremented are `Nat`; counters that the source
  also decrements (`upvoteCount--`, `likeCount--`) are `Int` so that the
  embedding does not silently clamp at zero.
-/

namespace Crowd

/-- Lifecycle status of a LiveEvent (schema enum scheduled/live/ended). -/
inductive LiveStatus where
  | scheduled
  | live
  | ended
deriving Repr, DecidableEq

/-- Q&A question status (schema enum pending/answered/dismissed). -/
inductive QAStatus where
  | pending
  | answered
  | dismissed
deriving Repr, DecidableEq

/-- Photo moderation status (schema enum pending/approved/rejected). -/
inductive PhotoStatus where
  | pending
  | approved
  | rejected
deriving Repr, DecidableEq

/-- Chat message type (schema enum text/emoji/system). -/
inductive MessageType where
  | text
  | emoji
  | system
deriving Repr, DecidableEq

/-- The liveSettings sub-document of the LiveEvent schema. -/
structure LiveSettings where
  enableChat : Bool
  enablePolls : Bool
  enableQA : Bool
  enablePhotoSharing : Bool
  moderationRequired : Bool
deriving Repr, DecidableEq

/-- Schema defaults: every flag true, moderationRequired true. -/
def defaultLiveSettings : LiveSettings :=
  { enableChat := true, enablePolls := true, enableQA := true
    enablePhotoSharing := true, moderationRequired := true }

/-- The metrics sub-document of the LiveEvent schema. -/
structure Metrics where
  activeUsers : Nat
  totalInteractions : Nat
  peakAttendance : Nat
  averageEngagementTime : Nat
deriving Repr, DecidableEq

/-- A LiveEvent document (single-event model, so eventId is implicit). -/
structure LiveEvent where
  status : LiveStatus
  liveSettings : LiveSettings
  metrics : Metrics
  startedAt : Option Nat
  endedAt : Option Nat
deriving Repr, DecidableEq

/-- A freshly constructed LiveEvent document with schema defaults applied. -/
def newLiveEvent (ls : LiveSettings) : LiveEvent :=
  { status := .scheduled, liveSettings := ls
    metrics := { activeUsers := 0, totalInteractions := 0
                 peakAttendance := 0, averageEngagementTime := 0 }
    startedAt := none, endedAt := none }

/-- One vote record inside a poll option (userId plus timestamp). -/
structure PollVoteRec where
  userId : Nat
  timestamp : Nat
deriving Repr, DecidableEq

/-- One option of a live poll. -/
structure PollOption where
  text : String
  votes : List PollVoteRec
  voteCount : Nat
deriving Repr, DecidableEq

/-- A live poll document. -/
structure LivePoll where
  question : String
  options : List PollOption
  totalVotes : Nat
  isActive : Bool
  allowMultiple : Bool
  expiresAt : Option Nat
deriving Repr, DecidableEq

/-- The answer sub-document of a Q&A question. -/
structure QAAnswer where
  text : String
  answeredBy : Nat
  answeredAt : Nat
deriving Repr, DecidableEq

/-- A live Q&A question document. -/
structure LiveQA where
  question : String
  askedBy : Nat
  upvotes : List Nat
  upvoteCount : Int
  answer : Option QAAnswer
  status : QAStatus
deriving Repr, DecidableEq

/-- One response inside an icebreaker document. -/
structure IcebreakerResponse where
  userId : Nat
  response : String
  timestamp : Nat
  likes : List Nat
deriving Repr, DecidableEq

/-- A live icebreaker document. -/
structure Icebreaker where
  question : String
  isActive : Bool
  responses : List IcebreakerResponse
  responseCount : Nat
deriving Repr, DecidableEq

/-- A live photo document. -/
structure LivePhoto where
  uploadedBy : Nat
  imageUrl : String
  caption : String
  status : PhotoStatus
  likes : List Nat
  likeCount : Int
  tags : List String
deriving Repr, DecidableEq

/-- A live chat message document. -/
structure LiveChat where
  userId : Nat
  message : String
  messageType : MessageType
  isVisible : Bool
deriving Repr, DecidableEq

/-- Per-option entry of the pollResults array computed after a vote. -/
structure PollResult where
  text : String
  voteCount : Nat
  percentage : Nat
deriving Repr, DecidableEq

/-- Room broadcasts emitted through io.to(room).emit, one constructor per
event name, carrying the payload fields the source sends. -/
inductive Broadcast where
  | eventStarted (startedAt : Nat)
  | eventEnded (endedAt : Nat) (metrics : Metrics)
  | newIcebreaker (id : Nat) (question : String)
  | icebreakerResponse (icebreakerId : Nat) (userId : Nat) (response : String)
      (totalResponses : Nat)
  | newPoll (id : Nat) (question : String) (optionTexts : List String)
      (allowMultiple : Bool) (expiresAt : Option Nat)
  | pollVote (pollId : Nat) (options : List PollResult) (totalVotes : Nat)
  | newQaQuestion (id : Nat) (question : String) (askedBy : Nat) (status : QAStatus)
  | qaUpvoteEvent (questionId : Nat) (upvoteCount : Int) (userUpvoted : Bool)
  | qaAnswered (questionId : Nat) (answer : QAAnswer) (status : QAStatus)
  | newPhoto (id : Nat) (imageUrl : String) (caption : String) (uploadedBy : Nat)
      (likeCount : Int)
  | photoLike (photoId : Nat) (likeCount : Int) (userLiked : Bool)
  | chatMessage (id : Nat) (userId : Nat) (message : String) (messageType : MessageType)
  | activeUsersUpdate (activeUsers : Nat) (peakAttendance : Option Nat)
  | metricsUpdate (activeUsers : Nat) (peakAttendance : Nat) (totalInteractions : Nat)
deriving Repr, DecidableEq

/-- HTTP-level outcome of a route: the literal status code and message sent by
the source, with ok for the success responses. -/
inductive RouteResult where
  | err (code : Nat) (msg : String)
  | ok (msg : String)
deriving Repr, DecidableEq

/-- Full state of one event room: the socket.io room member set (connection
ids), the LiveEvent document if one exists, the per-event collections, and a
fresh-id counter standing in for Mongo id generation. -/
structure SystemState where
  members : List Nat
  liveEvent : Option LiveEvent
  polls : List (Nat × LivePoll)
  qas : List (Nat × LiveQA)
  icebreakers : List (Nat × Icebreaker)
  photos : List (Nat × LivePhoto)
  chats : List (Nat × LiveChat)
  nextId : Nat
deriving Repr, DecidableEq

/-- Result shape of every route handler: updated state, room broadcasts,
HTTP outcome. -/
abbrev RouteOut := SystemState × List Broadcast × RouteResult

/-- findById on an (id, document) list. -/
def lookupId {α : Type} (i : Nat) : List (Nat × α) → Option α
  | [] => none
  | (j, a) :: rest => if j = i then some a else lookupId i rest

/-- Saving a modified document back: replace the entry with the given id. -/
def updateId {α : Type} (i : Nat) (f : α → α) : List (Nat × α) → List (Nat × α)
  | [] => []
  | (j, a) :: rest => if j = i then (j, f a) :: rest else (j, a) :: updateId i f rest

/-- In-place update of a list element at an index (beyond-range is a no-op). -/
def updateNth {α : Type} (f : α → α) : List α → Nat → List α
  | [], _ => []
  | a :: rest, 0 => f a :: rest
  | a :: rest, n + 1 => a :: updateNth f rest n

/-- LiveEvent.findOne with status live succeeds: there is a live event and its
status is live. -/
def isLiveNow : Option LiveEvent → Bool
  | some le => le.status = .live
  | none => false

/-- Model of the JS String.prototype.trim used throughout the routes: drop
whitespace from both ends (executable structural recursion, unlike the
well-founded String.trim of core). -/
def strTrim (s : String) : String :=
  String.mk
    ((((s.data.dropWhile Char.isWhitespace).reverse).dropWhile Char.isWhitespace).reverse)

/-- Route POST /:eventId/start.  Ownership check is the isOwner flag (the
Event.findOne organizer lookup is an external collaborator); liveSettings, when
the caller sends one, is modelled fully specified, so the spread merge of the
source equals replacement. -/
def startLive (now : Nat) (isOwner : Bool) (ls : Option LiveSettings)
    (s : SystemState) : RouteOut :=
  if isOwner = false then
    (s, [], .err 404 "Event not found or access denied")
  else if isLiveNow s.liveEvent then
    (s, [], .err 400 "Event is already live")
  else
    let le0 := match s.liveEvent with
      | some le => le
      | none => newLiveEvent (ls.getD defaultLiveSettings)
    let le1 : LiveEvent :=
      { le0 with
        status := .live
        startedAt := some now
        liveSettings := match ls with | some v => v | none => le0.liveSettings }
    ({ s with liveEvent := some le1 }, [.eventStarted now],
     .ok "Live event started successfully")

/-- Total votes over all polls, as aggregated by liveEventSchema.methods
.updateMetrics (the $sum of totalVotes). -/
def pollVotesTotal (polls : List (Nat × LivePoll)) : Nat :=
  (polls.map (fun p => p.2.totalVotes)).sum

/-- The aggregate recomputed by updateMetrics: chat count + total poll votes +
Q&A question count + photo count. -/
def interactionAgg (s : SystemState) : Nat :=
  s.chats.length + pollVotesTotal s.polls + s.qas.length + s.photos.length

/-- liveEventSchema.methods.updateMetrics: recompute totalInteractions as the
interaction aggregate. -/
def updateMetricsLE (s : SystemState) (le : LiveEvent) : LiveEvent :=
  { le with
    metrics := { le.metrics with totalInteractions := interactionAgg s } }

/-- Route POST /:eventId/end. -/
def endLive (now : Nat) (isOwner : Bool) (s : SystemState) : RouteOut :=
  match s.liveEvent with
  | none => (s, [], .err 404 "Live event not found")
  | some le =>
    if isOwner = false then
      (s, [], .err 403 "Access denied")
    else
      let le1 := updateMetricsLE s { le with status := .ended, endedAt := some now }
      ({ s with liveEvent := some le1 },
       [.eventEnded now le1.metrics],
       .ok "Live event ended successfully")

/-- Route POST /:eventId/icebreakers. -/
def createIcebreaker (question : String) (s : SystemState) : RouteOut :=
  if strTrim question = "" then
    (s, [], .err 400 "Question is required")
  else if isLiveNow s.liveEvent = false then
    (s, [], .err 404 "Live event not found or not active")
  else
    let ib : Icebreaker :=
      { question := strTrim question, isActive := true, responses := [], responseCount := 0 }
    ({ s with icebreakers := s.icebreakers ++ [(s.nextId, ib)], nextId := s.nextId + 1 },
     [.newIcebreaker s.nextId ib.question],
     .ok "Icebreaker question created successfully")

/-- Route POST /:eventId/icebreakers/:icebreakerId/respond. -/
def respondIcebreaker (now userId icebreakerId : Nat) (response : String)
    (s : SystemState) : RouteOut :=
  if strTrim response = "" then
    (s, [], .err 400 "Response is required")
  else
    match lookupId icebreakerId s.icebreakers with
    | none => (s, [], .err 404 "Icebreaker not found")
    | some ib =>
      if ib.responses.any (fun r => r.userId = userId) then
        (s, [], .err 400 "You have already responded to this question")
      else
        let ib1 : Icebreaker :=
          { ib with
            responses := ib.responses ++
              [{ userId := userId, response := strTrim response, timestamp := now, likes := [] }],
            responseCount := ib.responseCount + 1 }
        ({ s with icebreakers := updateId icebreakerId (fun _ => ib1) s.icebreakers },
         [.icebreakerResponse icebreakerId userId (strTrim response) ib1.responseCount],
         .ok "Response added successfully")

/-- Route POST /:eventId/polls.  The options argument is none when the request
body lacks an options array. -/
def createPoll (now : Nat) (question : String) (options : Option (List String))
    (allowMultiple : Option Bool) (expiresIn : Option Nat)
    (s : SystemState) : RouteOut :=
  match options with
  | none => (s, [], .err 400 "Question and at least 2 options are required")
  | some opts =>
    if question = "" ∨ opts.length < 2 then
      (s, [], .err 400 "Question and at least 2 options are required")
    else if isLiveNow s.liveEvent = false then
      (s, [], .err 404 "Live event not found or not active")
    else
      let poll : LivePoll :=
        { question := strTrim question
          options := opts.map (fun t => { text := strTrim t, votes := [], voteCount := 0 })
          totalVotes := 0
          isActive := true
          allowMultiple := allowMultiple.getD false
          expiresAt := expiresIn.map (fun e => now + e * 1000) }
      ({ s with polls := s.polls ++ [(s.nextId, poll)], nextId := s.nextId + 1 },
       [.newPoll s.nextId poll.question (poll.options.map (fun o => o.text))
          poll.allowMultiple poll.expiresAt],
       .ok "Poll created successfully")

/-- Push one vote record into an option and bump its voteCount. -/
def addVote (userId now : Nat) (o : PollOption) : PollOption :=
  { o with
    votes := o.votes ++ [{ userId := userId, timestamp := now }]
    voteCount := o.voteCount + 1 }

/-- Body of the optionIndexes.forEach of the vote route: record the vote in
option i and bump totalVotes. -/
def applyVoteIdx (userId now : Nat) (p : LivePoll) (i : Int) : LivePoll :=
  { p with
    options := updateNth (addVote userId now) p.options i.toNat
    totalVotes := p.totalVotes + 1 }

/-- The expiry check of the vote route: expiresAt is set and lies before now. -/
def pollExpired (now : Nat) (p : LivePoll) : Bool :=
  match p.expiresAt with
  | some t => t < now
  | none => false

/-- The hasVoted scan of the vote route: some option has a vote by this user. -/
def hasVotedIn (userId : Nat) (p : LivePoll) : Bool :=
  p.options.any (fun o => o.votes.any (fun v => v.userId = userId))

/-- Math.round((voteCount / totalVotes) * 100) on exact rationals:
floor(100 v / t + 1/2) computed as (200 v + t) / (2 t) in Nat division. -/
def jsRound100 (v t : Nat) : Nat := (200 * v + t) / (2 * t)

/-- The pollResults array computed after a vote (text, voteCount, percentage,
with 0 percent when totalVotes is 0). -/
def pollResultsOf (p : LivePoll) : List PollResult :=
  p.options.map (fun o =>
    { text := o.text, voteCount := o.voteCount
      percentage := if 0 < p.totalVotes then jsRound100 o.voteCount p.totalVotes else 0 })

/-- Route POST /:eventId/polls/:pollId/vote.  The optionIndexes argument is
none when the body lacks an array; indices are Int so the negative-index check
of the source is expressible. -/
def votePoll (now userId pollId : Nat) (optionIndexes : Option (List Int))
    (s : SystemState) : RouteOut :=
  match optionIndexes with
  | none => (s, [], .err 400 "optionIndexes array is required")
  | some idxs =>
    if idxs = [] then
      (s, [], .err 400 "optionIndexes array is required")
    else
      match lookupId pollId s.polls with
      | none => (s, [], .err 404 "Poll not found")
      | some p =>
        if p.isActive = false ∨ pollExpired now p then
          (s, [], .err 400 "Poll is no longer active")
        else if hasVotedIn userId p then
          (s, [], .err 400 "You have already voted in this poll")
        else if idxs.any (fun i => i < 0 ∨ (p.options.length : Int) - 1 < i) then
          (s, [], .err 400 "Invalid option index")
        else
          let p1 := idxs.foldl (applyVoteIdx userId now) p
          ({ s with polls := updateId pollId (fun _ => p1) s.polls },
           [.pollVote pollId (pollResultsOf p1) p1.totalVotes],
           .ok "Vote recorded successfully")

/-- Route POST /:eventId/qa/questions. -/
def qaAsk (userId : Nat) (question : String) (s : SystemState) : RouteOut :=
  if strTrim question = "" then
    (s, [], .err 400 "Question is required")
  else if isLiveNow s.liveEvent = false then
    (s, [], .err 404 "Live event not found or not active")
  else
    let q : LiveQA :=
      { question := strTrim question, askedBy := userId, upvotes := [], upvoteCount := 0
        answer := none, status := .pending }
    ({ s with qas := s.qas ++ [(s.nextId, q)], nextId := s.nextId + 1 },
     [.newQaQuestion s.nextId q.question userId q.status],
     .ok "Question submitted successfully")

/-- The toggle body of the upvote route: remove the user and decrement when
present, push and increment when absent. -/
def upvoteToggle (userId : Nat) (q : LiveQA) : LiveQA :=
  if userId ∈ q.upvotes then
    { q with
      upvotes := q.upvotes.filter (fun i => i ≠ userId)
      upvoteCount := q.upvoteCount - 1 }
  else
    { q with
      upvotes := q.upvotes ++ [userId]
      upvoteCount := q.upvoteCount + 1 }

/-- Route POST /:eventId/qa/questions/:questionId/upvote. -/
def qaUpvote (userId questionId : Nat) (s : SystemState) : RouteOut :=
  match lookupId questionId s.qas with
  | none => (s, [], .err 404 "Question not found")
  | some q =>
    let q1 := upvoteToggle userId q
    ({ s with qas := updateId questionId (fun _ => q1) s.qas },
     [.qaUpvoteEvent questionId q1.upvoteCount (decide (userId ∉ q.upvotes))],
     .ok (if userId ∈ q.upvotes then "Upvote removed" else "Question upvoted"))

/-- Route POST /:eventId/qa/questions/:questionId/answer. -/
def qaAnswer (now userId : Nat) (isOwner : Bool) (questionId : Nat) (answer : String)
    (s : SystemState) : RouteOut :=
  if strTrim answer = "" then
    (s, [], .err 400 "Answer is required")
  else if isOwner = false then
    (s, [], .err 403 "Only event organizers can answer questions")
  else
    match lookupId questionId s.qas with
    | none => (s, [], .err 404 "Question not found")
    | some q =>
      let a : QAAnswer := { text := strTrim answer, answeredBy := userId, answeredAt := now }
      let q1 : LiveQA := { q with answer := some a, status := .answered }
      ({ s with qas := updateId questionId (fun _ => q1) s.qas },
       [.qaAnswered questionId a q1.status],
       .ok "Question answered successfully")

/-- Route POST /:eventId/photos. -/
def sharePhoto (userId : Nat) (imageUrl caption : String) (tags : List String)
    (s : SystemState) : RouteOut :=
  if imageUrl = "" then
    (s, [], .err 400 "Image URL is required")
  else
    match s.liveEvent with
    | none => (s, [], .err 404 "Live event not found or not active")
    | some le =>
      if le.status ≠ .live then
        (s, [], .err 404 "Live event not found or not active")
      else
        let st : PhotoStatus :=
          if le.liveSettings.moderationRequired then .pending else .approved
        let photo : LivePhoto :=
          { uploadedBy := userId, imageUrl := imageUrl, caption := strTrim caption
            status := st, likes := [], likeCount := 0, tags := tags }
        ({ s with photos := s.photos ++ [(s.nextId, photo)], nextId := s.nextId + 1 },
         if st = .approved then
           [.newPhoto s.nextId photo.imageUrl photo.caption userId 0]
         else [],
         .ok (if st = .pending then "Photo submitted for moderation"
              else "Photo shared successfully"))

/-- The toggle body of the like route. -/
def likeToggle (userId : Nat) (ph : LivePhoto) : LivePhoto :=
  if userId ∈ ph.likes then
    { ph with
      likes := ph.likes.filter (fun i => i ≠ userId)
      likeCount := ph.likeCount - 1 }
  else
    { ph with
      likes := ph.likes ++ [userId]
      likeCount := ph.likeCount + 1 }

/-- Route POST /:eventId/photos/:photoId/like. -/
def likePhoto (userId photoId : Nat) (s : SystemState) : RouteOut :=
  match lookupId photoId s.photos with
  | none => (s, [], .err 404 "Photo not found")
  | some ph =>
    let ph1 := likeToggle userId ph
    ({ s with photos := updateId photoId (fun _ => ph1) s.photos },
     [.photoLike photoId ph1.likeCount (decide (userId ∉ ph.likes))],
     .ok (if userId ∈ ph.likes then "Like removed" else "Photo liked"))

/-- Route POST /:eventId/chat. -/
def sendChat (userId : Nat) (message : String) (messageType : MessageType)
    (s : SystemState) : RouteOut :=
  if strTrim message = "" then
    (s, [], .err 400 "Message is required")
  else if isLiveNow s.liveEvent = false then
    (s, [], .err 404 "Live event not found or not active")
  else
    let cm : LiveChat :=
      { userId := userId, message := strTrim message, messageType := messageType
        isVisible := true }
    ({ s with chats := s.chats ++ [(s.nextId, cm)], nextId := s.nextId + 1 },
     [.chatMessage s.nextId userId cm.message messageType],
     .ok "Message sent successfully")

/-- Socket join_event handler: socket.join (set add), then, when the event is
live, set activeUsers to the member count, raise peakAttendance when exceeded,
and broadcast active_users_update with both values. -/
def joinEvent (connId : Nat) (s : SystemState) : SystemState × List Broadcast :=
  let members1 := if connId ∈ s.members then s.members else s.members ++ [connId]
  match s.liveEvent with
  | some le =>
    if le.status = .live then
      let activeUsers := members1.length
      let peak := if le.metrics.peakAttendance < activeUsers then activeUsers
                  else le.metrics.peakAttendance
      let le1 := { le with metrics :=
        { le.metrics with activeUsers := activeUsers, peakAttendance := peak } }
      ({ s with members := members1, liveEvent := some le1 },
       [.activeUsersUpdate activeUsers (some peak)])
    else ({ s with members := members1 }, [])
  | none => ({ s with members := members1 }, [])

/-- Socket leave_event handler: socket.leave, then, when the event is live, set
activeUsers to the member count (peakAttendance untouched) and broadcast
active_users_update with activeUsers only. -/
def leaveEvent (connId : Nat) (s : SystemState) : SystemState × List Broadcast :=
  let members1 := s.members.filter (fun c => c ≠ connId)
  match s.liveEvent with
  | some le =>
    if le.status = .live then
      let le1 := { le with metrics := { le.metrics with activeUsers := members1.length } }
      ({ s with members := members1, liveEvent := some le1 },
       [.activeUsersUpdate members1.length none])
    else ({ s with members := members1 }, [])
  | none => ({ s with members := members1 }, [])

/-- Socket disconnect handler: the transport already removed the socket from
its rooms; when the socket had joined an event (socket.eventId set) the handler
re-counts, stores activeUsers when live (peakAttendance untouched), and
broadcasts active_users_update. -/
def disconnectEvent (connId : Nat) (hadEventId : Bool) (s : SystemState) :
    SystemState × List Broadcast :=
  let members1 := s.members.filter (fun c => c ≠ connId)
  if hadEventId = false then ({ s with members := members1 }, [])
  else
    match s.liveEvent with
    | some le =>
      if le.status = .live then
        let le1 := { le with metrics := { le.metrics with activeUsers := members1.length } }
        ({ s with members := members1, liveEvent := some le1 },
         [.activeUsersUpdate members1.length none])
      else ({ s with members := members1 }, [])
    | none => ({ s with members := members1 }, [])

/-- One tick of the 30-second setInterval, restricted to this room: when the
event is live and the fetched member count differs from the stored activeUsers,
store it, raise peakAttendance when exceeded, save, and broadcast
metrics_update carrying the stored totalInteractions; otherwise do nothing. -/
def metricsTick (s : SystemState) : SystemState × List Broadcast :=
  match s.liveEvent with
  | some le =>
    if le.status = .live then
      let c := s.members.length
      if c ≠ le.metrics.activeUsers then
        let peak := if le.metrics.peakAttendance < c then c else le.metrics.peakAttendance
        let le1 := { le with metrics :=
          { le.metrics with activeUsers := c, peakAttendance := peak } }
        ({ s with liveEvent := some le1 },
         [.metricsUpdate c peak le.metrics.totalInteractions])
      else (s, [])
    else (s, [])
  | none => (s, [])

/-- Vote records by one user inside one option (the inner scan of hasVoted). -/
def userVoteCountOpt (w : Nat) (o : PollOption) : Nat :=
  (o.votes.filter (fun v => v.userId = w)).length

/-- Vote records by one user across all options of a poll. -/
def countUserVotes (w : Nat) (p : LivePoll) : Nat :=
  (p.options.map (userVoteCountOpt w)).sum

/-- Sum of the per-option voteCount fields of a poll. -/
def sumVoteCounts (p : LivePoll) : Nat :=
  (p.options.map (fun o => o.voteCount)).sum

/-- One inbound vote_poll request. -/
structure VoteReq where
  now : Nat
  userId : Nat
  pollId : Nat
  optionIndexes : Option (List Int)
deriving Repr, DecidableEq

/-- Run a sequence of vote_poll requests, threading the state. -/
def runVotes : List VoteReq → SystemState → SystemState
  | [], s => s
  | r :: rest, s => runVotes rest (votePoll r.now r.userId r.pollId r.optionIndexes s).1

/-- Every poll in the state balances its per-option counts with totalVotes. -/
def PollsBalanced (s : SystemState) : Prop :=
  ∀ id p, lookupId id s.polls = some p → sumVoteCounts p = p.totalVotes

/-- Every poll with allowMultiple = false carries each voter at most once in
the union of its options' vote lists. -/
def SingleVoterOK (s : SystemState) : Prop :=
  ∀ id p, lookupId id s.polls = some p → p.allowMultiple = false →
    ∀ u, countUserVotes u p ≤ 1

/-- Projection: the stored peakAttendance (0 when no LiveEvent exists). -/
def peakOf (s : SystemState) : Nat :=
  match s.liveEvent with
  | some le => le.metrics.peakAttendance
  | none => 0

/-- Projection: the stored activeUsers (0 when no LiveEvent exists). -/
def activeUsersOf (s : SystemState) : Nat :=
  match s.liveEvent with
  | some le => le.metrics.activeUsers
  | none => 0

/-- Projection: the stored totalInteractions (0 when no LiveEvent exists). -/
def storedInteractionsOf (s : SystemState) : Nat :=
  match s.liveEvent with
  | some le => le.metrics.totalInteractions
  | none => 0

/-- Projection: the lifecycle status (scheduled when no LiveEvent exists). -/
def statusOf (s : SystemState) : LiveStatus :=
  match s.liveEvent with
  | some le => le.status
  | none => .scheduled

/-- Every icebreaker keeps responseCount equal to the length of responses. -/
def IcebreakersCounted (s : SystemState) : Prop :=
  ∀ id ib, lookupId id s.icebreakers = some ib → ib.responseCount = ib.responses.length

/-- The state with an arbitrary settings reading of the LiveEvent replaced:
the four enable flags set to the given values, moderationRequired kept. -/
def setFlags (c p q ph : Bool) (ls : LiveSettings) : LiveSettings :=
  { ls with enableChat := c, enablePolls := p, enableQA := q, enablePhotoSharing := ph }

/-- A state identical except for the four enable flags of liveSettings. -/
def flagVariant (c p q ph : Bool) (s : SystemState) : SystemState :=
  { s with liveEvent := s.liveEvent.map (fun le =>
      { le with liveSettings := setFlags c p q ph le.liveSettings }) }

/-- An empty room with no LiveEvent. -/
def emptyState : SystemState :=
  { members := [], liveEvent := none, polls := [], qas := [], icebreakers := []
    photos := [], chats := [], nextId := 0 }

/-- A LiveEvent already live (concrete example document). -/
def exLiveEventLive : LiveEvent :=
  { newLiveEvent defaultLiveSettings with status := .live, startedAt := some 1 }

/-- A fresh two-option poll, allowMultiple = false (concrete example). -/
def exPollAB : LivePoll :=
  { question := "Q", options := [{ text := "A", votes := [], voteCount := 0 },
      { text := "B", votes := [], voteCount := 0 }]
    totalVotes := 0, isActive := true, allowMultiple := false, expiresAt := none }

/-- A live room holding the fresh poll under id 0 (concrete example). -/
def exVoteState : SystemState :=
  { emptyState with liveEvent := some exLiveEventLive, polls := [(0, exPollAB)], nextId := 1 }

/-- The poll after user 7 voted option 0 (concrete example). -/
def exVotedPoll : LivePoll :=
  { question := "Q"
    options := [{ text := "A", votes := [{ userId := 7, timestamp := 5 }], voteCount := 1 },
      { text := "B", votes := [], voteCount := 0 }]
    totalVotes := 1, isActive := true, allowMultiple := false, expiresAt := none }

/-- A live room where user 7 already voted in poll 0 (concrete example). -/
def exVotedState : SystemState :=
  { emptyState with liveEvent := some exLiveEventLive, polls := [(0, exVotedPoll)], nextId := 1 }

/-- A live room with one chat message but stored totalInteractions still 0 and
member count matching the stored activeUsers (concrete example). -/
def exStaleState : SystemState :=
  { emptyState with
    liveEvent := some exLiveEventLive
    chats := [(1, { userId := 2, message := "m", messageType := .text, isVisible := true })]
    nextId := 2 }

/-- An ended LiveEvent room still holding the active poll 0 (concrete example). -/
def exEndedState : SystemState :=
  { emptyState with
    liveEvent := some { exLiveEventLive with status := .ended, endedAt := some 2 }
    polls := [(0, exPollAB)], nextId := 1 }

/-- A live room with moderationRequired = true and no photos (concrete example). -/
def exModState : SystemState :=
  { emptyState with liveEvent := some exLiveEventLive }

/-- A Q&A question already upvoted by user 3 (concrete example). -/
def exQA : LiveQA :=
  { question := "q", askedBy := 1, upvotes := [3], upvoteCount := 1
    answer := none, status := .pending }

/-- An icebreaker already answered by user 7 (concrete example). -/
def exIcebreaker : Icebreaker :=
  { question := "q", isActive := true
    responses := [{ userId := 7, response := "r", timestamp := 1, likes := [] }]
    responseCount := 1 }

/-- A live room holding the icebreaker under id 0 (concrete example). -/
def exIceState : SystemState :=
  { emptyState with
    liveEvent := some exLiveEventLive
    icebreakers := [(0, exIcebreaker)], nextId := 1 }

/-- A scheduled room: two connections join before the event goes live, then the
event starts and one leaves (concrete reachable chain). -/
def exChain0 : SystemState :=
  { emptyState with liveEvent := some (newLiveEvent defaultLiveSettings) }

/-- First join of the chain (while scheduled). -/
def exChain1 : SystemState := (joinEvent 1 exChain0).1

/-- Second join of the chain (while scheduled). -/
def exChain2 : SystemState := (joinEvent 2 exChain1).1

/-- The chain after the organizer starts the event. -/
def exChain3 : SystemState := (startLive 3 true none exChain2).1

/-- The chain after connection 2 leaves while live. -/
def exChain4 : SystemState := (leaveEvent 2 exChain3).1

/-- A live room with one member connected but stored activeUsers still 0
(concrete example for a tick that records a change). -/
def exTickState : SystemState :=
  { emptyState with members := [5], liveEvent := some exLiveEventLive, nextId := 1 }

/-- A pending photo (concrete example). -/
def exPendingPhoto : LivePhoto :=
  { uploadedBy := 7, imageUrl := "p.jpg", caption := "", status := .pending
    likes := [], likeCount := 0, tags := [] }

/-- A live room holding the pending photo under id 0 (concrete example). -/
def exPhotoState : SystemState :=
  { emptyState with
    liveEvent := some exLiveEventLive
    photos := [(0, exPendingPhoto)], nextId := 1 }

/-- The photo document constructed by the share route. -/
def mkPhoto (u : Nat) (url cap : String) (tags : List String) (st : PhotoStatus) :
    LivePhoto :=
  { uploadedBy := u, imageUrl := url, caption := strTrim cap, status := st
    likes := [], likeCount := 0, tags := tags }

/-- The liveSettings flag replacement lifted to the optional LiveEvent. -/
def flagMap (cF pF qF phF : Bool) (o : Option LiveEvent) : Option LiveEvent :=
  o.map (fun le => { le with liveSettings := setFlags cF pF qF phF le.liveSettings })

theorem lookupId_updateId_self {α : Type} (i : Nat) (f : α → α) (l : List (Nat × α)) :
    lookupId i (updateId i f l) = (lookupId i l).map f := by
  induction l with
  | nil => rfl
  | cons hd tl ih =>
    obtain ⟨j, a⟩ := hd
    by_cases h : j = i
    · simp [lookupId, updateId, h]
    · simp [lookupId, updateId, h, ih]

theorem lookupId_updateId_ne {α : Type} {i j : Nat} (h : j ≠ i) (f : α → α)
    (l : List (Nat × α)) :
    lookupId i (updateId j f l) = lookupId i l := by
  induction l with
  | nil => rfl
  | cons hd tl ih =>
    obtain ⟨k, a⟩ := hd
    by_cases hk : k = j
    · subst hk
      simp [lookupId, updateId, h]
    · by_cases hi : k = i
      · subst hi
        simp [lookupId, updateId, hk]
      · simp [lookupId, updateId, hk, hi, ih]

theorem lookupId_append_single {α : Type} (i j : Nat) (a : α) (l : List (Nat × α)) :
    lookupId i (l ++ [(j, a)]) =
      match lookupId i l with
      | some x => some x
      | none => if j = i then some a else none := by
  induction l with
  | nil => rfl
  | cons hd tl ih =>
    obtain ⟨k, b⟩ := hd
    by_cases hk : k = i
    · simp [lookupId, hk]
    · simp [lookupId, hk, ih]

theorem updateNth_length {α : Type} (f : α → α) (l : List α) (n : Nat) :
    (updateNth f l n).length = l.length := by
  induction l generalizing n with
  | nil => rfl
  | cons a t ih =>
    cases n with
    | zero => rfl
    | succ m => simp [updateNth, ih]

theorem sum_map_updateNth {α : Type} (g : α → Nat) (f : α → α) (k : Nat)
    (h : ∀ x, g (f x) = g x + k) (l : List α) (n : Nat) (hn : n < l.length) :
    ((updateNth f l n).map g).sum = (l.map g).sum + k := by
  induction l generalizing n with
  | nil => simp at hn
  | cons a t ih =>
    cases n with
    | zero =>
      simp [updateNth, h a]
      omega
    | succ m =>
      have hm : m < t.length := by simpa using hn
      simp [updateNth, ih m hm]
      omega

theorem applyVoteIdx_options_length (u now : Nat) (p : LivePoll) (i : Int) :
    (applyVoteIdx u now p i).options.length = p.options.length := by
  simp [applyVoteIdx, updateNth_length]

theorem foldl_applyVoteIdx_options_length (u now : Nat) (idxs : List Int) (p : LivePoll) :
    (idxs.foldl (applyVoteIdx u now) p).options.length = p.options.length := by
  induction idxs generalizing p with
  | nil => rfl
  | cons i rest ih => simp [List.foldl_cons, ih, applyVoteIdx_options_length]

theorem foldl_applyVoteIdx_totalVotes (u now : Nat) (idxs : List Int) (p : LivePoll) :
    (idxs.foldl (applyVoteIdx u now) p).totalVotes = p.totalVotes + idxs.length := by
  induction idxs generalizing p with
  | nil => simp
  | cons i rest ih =>
    simp [List.foldl_cons, ih, applyVoteIdx]
    omega

theorem sumVoteCounts_applyVoteIdx (u now : Nat) (p : LivePoll) (i : Int)
    (hi : i.toNat < p.options.length) :
    sumVoteCounts (applyVoteIdx u now p i) = sumVoteCounts p + 1 := by
  unfold sumVoteCounts applyVoteIdx
  exact sum_map_updateNth (fun o => o.voteCount) (addVote u now) 1
    (fun x => rfl) p.options i.toNat hi

theorem foldl_applyVoteIdx_sumVoteCounts (u now : Nat) (idxs : List Int) (p : LivePoll)
    (h : ∀ i ∈ idxs, i.toNat < p.options.length) :
    sumVoteCounts (idxs.foldl (applyVoteIdx u now) p) = sumVoteCounts p + idxs.length := by
  induction idxs generalizing p with
  | nil => simp
  | cons i rest ih =>
    have hi : i.toNat < p.options.length := h i (by simp)
    have hrest : ∀ j ∈ rest, j.toNat < (applyVoteIdx u now p i).options.length := by
      intro j hj
      rw [applyVoteIdx_options_length]
      exact h j (by simp [hj])
    simp only [List.foldl_cons]
    rw [ih (applyVoteIdx u now p i) hrest, sumVoteCounts_applyVoteIdx u now p i hi]
    simp [List.length_cons]
    omega

theorem userVoteCountOpt_addVote (w u now : Nat) (o : PollOption) :
    userVoteCountOpt w (addVote u now o) =
      userVoteCountOpt w o + (if w = u then 1 else 0) := by
  unfold userVoteCountOpt addVote
  by_cases h : u = w
  · simp [List.filter_append, h]
  · have h2 : ¬ (w = u) := fun hh => h hh.symm
    simp [List.filter_append, h, h2]

theorem countUserVotes_applyVoteIdx (w u now : Nat) (p : LivePoll) (i : Int)
    (hi : i.toNat < p.options.length) :
    countUserVotes w (applyVoteIdx u now p i) =
      countUserVotes w p + (if w = u then 1 else 0) := by
  unfold countUserVotes applyVoteIdx
  exact sum_map_updateNth (userVoteCountOpt w) (addVote u now) (if w = u then 1 else 0)
    (fun x => userVoteCountOpt_addVote w u now x) p.options i.toNat hi

theorem foldl_applyVoteIdx_countUserVotes (w u now : Nat) (idxs : List Int) (p : LivePoll)
    (h : ∀ i ∈ idxs, i.toNat < p.options.length) :
    countUserVotes w (idxs.foldl (applyVoteIdx u now) p) =
      countUserVotes w p + (if w = u then idxs.length else 0) := by
  induction idxs generalizing p with
  | nil => simp
  | cons i rest ih =>
    have hi : i.toNat < p.options.length := h i (by simp)
    have hrest : ∀ j ∈ rest, j.toNat < (applyVoteIdx u now p i).options.length := by
      intro j hj
      rw [applyVoteIdx_options_length]
      exact h j (by simp [hj])
    simp only [List.foldl_cons]
    rw [ih (applyVoteIdx u now p i) hrest, countUserVotes_applyVoteIdx w u now p i hi]
    by_cases hw : w = u <;> simp [hw] <;> omega

theorem hasVotedIn_eq_false_iff (u : Nat) (p : LivePoll) :
    hasVotedIn u p = false ↔ countUserVotes u p = 0 := by
  unfold hasVotedIn countUserVotes userVoteCountOpt
  simp [List.any_eq_true, List.sum_eq_zero_iff, List.length_eq_zero,
    List.filter_eq_nil_iff]

theorem voteGuard_in_range (idxs : List Int) (p : LivePoll)
    (h : idxs.any (fun i => i < 0 ∨ (p.options.length : Int) - 1 < i) = false) :
    ∀ i ∈ idxs, i.toNat < p.options.length := by
  intro i hi
  have h2 : ∀ x ∈ idxs, 0 ≤ x ∧ x ≤ (p.options.length : Int) - 1 := by simpa using h
  have h3 := h2 i hi
  omega

theorem foldl_applyVoteIdx_allowMultiple (u now : Nat) (idxs : List Int) (p : LivePoll) :
    (idxs.foldl (applyVoteIdx u now) p).allowMultiple = p.allowMultiple := by
  induction idxs generalizing p with
  | nil => rfl
  | cons i rest ih => simp [List.foldl_cons, ih, applyVoteIdx]

theorem votePoll_cases (now u pid : Nat) (o : Option (List Int)) (s : SystemState) :
    (∃ c m, votePoll now u pid o s = (s, [], .err c m)) ∨
    (∃ idxs p, o = some idxs ∧ idxs ≠ [] ∧ lookupId pid s.polls = some p ∧
      p.isActive = true ∧ pollExpired now p = false ∧ hasVotedIn u p = false ∧
      (∀ i ∈ idxs, i.toNat < p.options.length) ∧
      votePoll now u pid o s =
        ({ s with polls :=
            updateId pid (fun _ => idxs.foldl (applyVoteIdx u now) p) s.polls },
         [.pollVote pid (pollResultsOf (idxs.foldl (applyVoteIdx u now) p))
            (idxs.foldl (applyVoteIdx u now) p).totalVotes],
         .ok "Vote recorded successfully")) := by
  unfold votePoll
  cases o with
  | none => exact Or.inl ⟨400, "optionIndexes array is required", rfl⟩
  | some idxs =>
    dsimp only
    by_cases he : idxs = []
    · rw [if_pos he]
      exact Or.inl ⟨400, "optionIndexes array is required", rfl⟩
    · rw [if_neg he]
      cases hl : lookupId pid s.polls with
      | none => exact Or.inl ⟨404, "Poll not found", rfl⟩
      | some p =>
        dsimp only
        by_cases hact : p.isActive = false ∨ pollExpired now p = true
        · rw [if_pos hact]
          exact Or.inl ⟨400, "Poll is no longer active", rfl⟩
        · rw [if_neg hact]
          by_cases hv : hasVotedIn u p = true
          · rw [if_pos hv]
            exact Or.inl ⟨400, "You have already voted in this poll", rfl⟩
          · rw [if_neg hv]
            by_cases hr : (idxs.any (fun i => i < 0 ∨ (p.options.length : Int) - 1 < i)) = true
            · rw [if_pos hr]
              exact Or.inl ⟨400, "Invalid option index", rfl⟩
            · rw [if_neg hr]
              rcases not_or.mp hact with ⟨h1, h2⟩
              have h1b : p.isActive = true := by simpa using h1
              have h2b : pollExpired now p = false := by simpa using h2
              have hvb : hasVotedIn u p = false := by simpa using hv
              have hrb :
                  (idxs.any (fun i => i < 0 ∨ (p.options.length : Int) - 1 < i)) = false := by
                simpa using hr
              exact Or.inr ⟨idxs, p, rfl, he, rfl, h1b, h2b, hvb,
                voteGuard_in_range idxs p hrb, rfl⟩

theorem pollsBalanced_votePoll (now u pid : Nat) (o : Option (List Int)) (s : SystemState)
    (h : PollsBalanced s) : PollsBalanced (votePoll now u pid o s).1 := by
  rcases votePoll_cases now u pid o s with ⟨c, m, hv⟩ | ⟨idxs, p, _, _, hl, _, _, _, hrange, hv⟩
  · rw [hv]
    exact h
  · rw [hv]
    intro id q hq
    by_cases hid : id = pid
    · subst hid
      rw [lookupId_updateId_self, hl, Option.map_some'] at hq
      cases hq
      rw [foldl_applyVoteIdx_sumVoteCounts u now idxs p hrange,
        foldl_applyVoteIdx_totalVotes, h id p hl]
    · rw [lookupId_updateId_ne (fun hh => hid hh.symm)] at hq
      exact h id q hq

theorem singleVoterOK_votePoll (now u pid : Nat) (o : Option (List Int)) (s : SystemState)
    (hsing : ∀ l, o = some l → l.length ≤ 1)
    (h : SingleVoterOK s) : SingleVoterOK (votePoll now u pid o s).1 := by
  rcases votePoll_cases now u pid o s with ⟨c, m, hv⟩ |
    ⟨idxs, p, ho, _, hl, _, _, hvoted, hrange, hv⟩
  · rw [hv]
    exact h
  · rw [hv]
    intro id q hq ham w
    by_cases hid : id = pid
    · subst hid
      rw [lookupId_updateId_self, hl, Option.map_some'] at hq
      cases hq
      rw [foldl_applyVoteIdx_countUserVotes w u now idxs p hrange]
      by_cases hw : w = u
      · rw [if_pos hw]
        have h0 : countUserVotes w p = 0 := by
          rw [hw]
          exact (hasVotedIn_eq_false_iff u p).mp hvoted
        rw [h0]
        simpa using hsing idxs ho
      · rw [if_neg hw]
        have ham2 : p.allowMultiple = false := by
          rw [foldl_applyVoteIdx_allowMultiple] at ham
          exact ham
        have := h id p hl ham2 w
        omega
    · rw [lookupId_updateId_ne (fun hh => hid hh.symm)] at hq
      exact h id q hq ham w

theorem pollsBalanced_runVotes (reqs : List VoteReq) (s : SystemState)
    (h : PollsBalanced s) : PollsBalanced (runVotes reqs s) := by
  induction reqs generalizing s with
  | nil => exact h
  | cons r rest ih =>
    exact ih _ (pollsBalanced_votePoll r.now r.userId r.pollId r.optionIndexes s h)

theorem singleVoterOK_runVotes (reqs : List VoteReq) (s : SystemState)
    (hsing : ∀ r ∈ reqs, ∀ l, r.optionIndexes = some l → l.length ≤ 1)
    (h : SingleVoterOK s) : SingleVoterOK (runVotes reqs s) := by
  induction reqs generalizing s with
  | nil => exact h
  | cons r rest ih =>
    exact ih _ (fun r2 h2 => hsing r2 (by simp [h2]))
      (singleVoterOK_votePoll r.now r.userId r.pollId r.optionIndexes s
        (hsing r (by simp)) h)

theorem createPoll_cases (now : Nat) (q : String) (opts : Option (List String))
    (am : Option Bool) (e : Option Nat) (s : SystemState) :
    (createPoll now q opts am e s).1 = s ∨
    (∃ os, opts = some os ∧
      (createPoll now q opts am e s).1 =
        { s with
          polls := s.polls ++ [(s.nextId,
            { question := strTrim q
              options := os.map (fun t => { text := strTrim t, votes := [], voteCount := 0 })
              totalVotes := 0
              isActive := true
              allowMultiple := am.getD false
              expiresAt := e.map (fun x => now + x * 1000) })]
          nextId := s.nextId + 1 }) := by
  unfold createPoll
  cases opts with
  | none => exact Or.inl rfl
  | some os =>
    dsimp only
    by_cases h1 : q = "" ∨ os.length < 2
    · rw [if_pos h1]
      exact Or.inl rfl
    · rw [if_neg h1]
      by_cases h2 : isLiveNow s.liveEvent = false
      · rw [if_pos h2]
        exact Or.inl rfl
      · rw [if_neg h2]
        exact Or.inr ⟨os, rfl, rfl⟩

theorem sumVoteCounts_fresh (q : String) (os : List String) (am : Bool) (e : Option Nat) :
    sumVoteCounts
      { question := q, options := os.map (fun t => { text := strTrim t, votes := [], voteCount := 0 })
        totalVotes := 0, isActive := true, allowMultiple := am, expiresAt := e } = 0 := by
  unfold sumVoteCounts
  simp [List.map_map]
  exact List.sum_eq_zero (by simp [Function.comp])

theorem countUserVotes_fresh (u : Nat) (q : String) (os : List String) (am : Bool)
    (e : Option Nat) :
    countUserVotes u
      { question := q, options := os.map (fun t => { text := strTrim t, votes := [], voteCount := 0 })
        totalVotes := 0, isActive := true, allowMultiple := am, expiresAt := e } = 0 := by
  unfold countUserVotes userVoteCountOpt
  simp [List.map_map]
  exact List.sum_eq_zero (by simp [Function.comp])

theorem pollsBalanced_createPoll (now : Nat) (q : String) (opts : Option (List String))
    (am : Option Bool) (e : Option Nat) (s : SystemState)
    (h : PollsBalanced s) : PollsBalanced (createPoll now q opts am e s).1 := by
  rcases createPoll_cases now q opts am e s with hc | ⟨os, ho, hc⟩
  · rw [hc]
    exact h
  · rw [hc]
    intro id p hp
    rw [lookupId_append_single] at hp
    cases hl : lookupId id s.polls with
    | some x =>
      rw [hl] at hp
      cases hp
      exact h id _ hl
    | none =>
      rw [hl] at hp
      by_cases hid : s.nextId = id
      · rw [if_pos hid] at hp
        cases hp
        rw [sumVoteCounts_fresh]
      · rw [if_neg hid] at hp
        cases hp

theorem singleVoterOK_createPoll (now : Nat) (q : String) (opts : Option (List String))
    (am : Option Bool) (e : Option Nat) (s : SystemState)
    (h : SingleVoterOK s) : SingleVoterOK (createPoll now q opts am e s).1 := by
  rcases createPoll_cases now q opts am e s with hc | ⟨os, ho, hc⟩
  · rw [hc]
    exact h
  · rw [hc]
    intro id p hp ham u
    rw [lookupId_append_single] at hp
    cases hl : lookupId id s.polls with
    | some x =>
      rw [hl] at hp
      cases hp
      exact h id _ hl ham u
    | none =>
      rw [hl] at hp
      by_cases hid : s.nextId = id
      · rw [if_pos hid] at hp
        cases hp
        rw [countUserVotes_fresh]
        omega
      · rw [if_neg hid] at hp
        cases hp

/-- C1 (amended).  A vote attempt by a user already present in any option's
votes of a poll that passed the earlier checks is rejected with 400 "You have
already voted in this poll" and the returned state is the input state, so every
option's votes, voteCount, and the poll's totalVotes are unchanged.  Moreover,
for any sequence of vote_poll requests in which each request submits a single
option index, every poll with allowMultiple = false keeps each voter's id in at
most one option's votes list and never more than once within a single option
(countUserVotes, the total number of that voter's vote records across all
options, stays at most 1); poll creation establishes the invariant.  (The
unamended claim fails because the route never forces a single-choice poll's
first vote to carry exactly one option index; see the counterexample.) -/
theorem crowd_c1_single_vote :
    (∀ now u pid idxs s p, idxs ≠ [] → lookupId pid s.polls = some p →
      p.isActive = true → pollExpired now p = false → hasVotedIn u p = true →
      votePoll now u pid (some idxs) s =
        (s, [], .err 400 "You have already voted in this poll"))
    ∧ (∀ now q opts am e s, SingleVoterOK s →
        SingleVoterOK (createPoll now q opts am e s).1)
    ∧ (∀ reqs s, (∀ r ∈ reqs, ∀ l, r.optionIndexes = some l → l.length ≤ 1) →
        SingleVoterOK s → SingleVoterOK (runVotes reqs s)) := by
  refine ⟨?_, singleVoterOK_createPoll, singleVoterOK_runVotes⟩
  intro now u pid idxs s p hne hl hact hexp hv
  unfold votePoll
  dsimp only
  rw [if_neg hne, hl]
  dsimp only
  rw [if_neg (by simp [hact, hexp]), if_pos hv]

/-- C1 counterexample.  On a live room holding a fresh two-option poll with
allowMultiple = false, a first vote submitting optionIndexes [0, 0] is accepted
and leaves user 7's id twice inside option 0's votes list, violating the
claimed at-most-once invariant. -/
theorem crowd_c1_counterexample :
    (votePoll 5 7 0 (some [0, 0]) exVoteState).2.2 = .ok "Vote recorded successfully"
    ∧ exPollAB.allowMultiple = false
    ∧ (match lookupId 0 (votePoll 5 7 0 (some [0, 0]) exVoteState).1.polls with
       | some p => countUserVotes 7 p
       | none => 0) = 2 :=
  ⟨rfl, rfl, rfl⟩

/-- C1 witness: the rejection clause applied at a concrete state where user 7
already voted. -/
theorem crowd_c1_witness :
    votePoll 6 7 0 (some [1]) exVotedState =
      (exVotedState, [], .err 400 "You have already voted in this poll") :=
  crowd_c1_single_vote.1 6 7 0 [1] exVotedState exVotedPoll
    (by decide) rfl rfl rfl rfl

/-- C5 (confirmed).  Poll creation establishes sum(option.voteCount) ==
poll.totalVotes, and any sequence of vote_poll requests (accepted or rejected)
preserves it for every poll in the state. -/
theorem crowd_c5_vote_counts_balanced :
    (∀ now q opts am e s, PollsBalanced s → PollsBalanced (createPoll now q opts am e s).1)
    ∧ (∀ reqs s, PollsBalanced s → PollsBalanced (runVotes reqs s)) :=
  ⟨pollsBalanced_createPoll, pollsBalanced_runVotes⟩

/-- C5 witness: the preservation clause applied to a two-index vote on the
concrete fresh poll. -/
theorem crowd_c5_witness :
    PollsBalanced (runVotes
      [{ now := 5, userId := 7, pollId := 0, optionIndexes := some [0, 1] }]
      exVoteState) := by
  have hbal : PollsBalanced exVoteState := by
    intro id p hp
    by_cases h0 : (0 : Nat) = id
    · rw [show exVoteState.polls = [(0, exPollAB)] from rfl] at hp
      rw [lookupId, if_pos h0] at hp
      cases hp
      rfl
    · rw [show exVoteState.polls = [(0, exPollAB)] from rfl] at hp
      rw [lookupId, if_neg h0] at hp
      cases hp
  exact crowd_c5_vote_counts_balanced.2
    [{ now := 5, userId := 7, pollId := 0, optionIndexes := some [0, 1] }]
    exVoteState hbal

theorem filter_ne_eq_self_of_not_mem {l : List Nat} {u : Nat} (h : u ∉ l) :
    l.filter (fun i => i ≠ u) = l := by
  induction l with
  | nil => rfl
  | cons a t ih =>
    have ha : ¬ (a = u) := fun hh => h (hh ▸ List.mem_cons_self a t)
    have ht : u ∉ t := fun hh => h (List.mem_cons_of_mem a hh)
    rw [List.filter_cons, if_pos (by simp [ha]), ih ht]

theorem filter_ne_length_of_nodup_mem {l : List Nat} {u : Nat}
    (hd : l.Nodup) (hm : u ∈ l) :
    (l.filter (fun i => i ≠ u)).length + 1 = l.length := by
  induction l with
  | nil => cases hm
  | cons a t ih =>
    rcases List.nodup_cons.mp hd with ⟨ha, ht⟩
    by_cases hau : a = u
    · subst hau
      rw [List.filter_cons, if_neg (by simp), filter_ne_eq_self_of_not_mem ha]
      simp
    · have hm2 : u ∈ t := by
        rcases List.mem_cons.mp hm with h | h
        · exact absurd h.symm hau
        · exact h
      rw [List.filter_cons, if_pos (by simp [hau])]
      have := ih ht hm2
      simp only [List.length_cons]
      omega

theorem filter_ne_perm_of_nodup_mem {l : List Nat} {u : Nat}
    (hd : l.Nodup) (hm : u ∈ l) :
    (l.filter (fun i => i ≠ u) ++ [u]).Perm l := by
  induction l with
  | nil => cases hm
  | cons a t ih =>
    rcases List.nodup_cons.mp hd with ⟨ha, ht⟩
    by_cases hau : a = u
    · subst hau
      rw [List.filter_cons, if_neg (by simp), filter_ne_eq_self_of_not_mem ha]
      exact List.perm_append_singleton a t
    · have hm2 : u ∈ t := by
        rcases List.mem_cons.mp hm with h | h
        · exact absurd h.symm hau
        · exact h
      rw [List.filter_cons, if_pos (by simp [hau]), List.cons_append]
      exact List.Perm.cons a (ih ht hm2)

theorem upvoteToggle_not_mem (u : Nat) (q : LiveQA) (hm : u ∉ q.upvotes) :
    upvoteToggle u q =
      { q with upvotes := q.upvotes ++ [u], upvoteCount := q.upvoteCount + 1 } := by
  rw [upvoteToggle, if_neg hm]

theorem upvoteToggle_mem (u : Nat) (q : LiveQA) (hm : u ∈ q.upvotes) :
    upvoteToggle u q =
      { q with
        upvotes := q.upvotes.filter (fun i => i ≠ u)
        upvoteCount := q.upvoteCount - 1 } := by
  rw [upvoteToggle, if_pos hm]

/-- C4 (confirmed).  For a Q&A question in a well-formed state (upvoteCount
equal to the number of upvotes, no duplicate voters, as established at creation
and preserved below): one upvote keeps the invariant; two successive upvotes by
the same user restore the upvotes (up to order) and the upvoteCount exactly; an
upvote by an absent user appends them and increments the count by one; and the
upvote route stores exactly this toggle on the looked-up question. -/
theorem crowd_c4_upvote_toggle :
    ∀ (u : Nat) (q : LiveQA), q.upvoteCount = (q.upvotes.length : Int) →
      q.upvotes.Nodup →
      ((upvoteToggle u q).upvoteCount = ((upvoteToggle u q).upvotes.length : Int)
        ∧ (upvoteToggle u q).upvotes.Nodup)
      ∧ ((upvoteToggle u (upvoteToggle u q)).upvotes.Perm q.upvotes
        ∧ (upvoteToggle u (upvoteToggle u q)).upvoteCount = q.upvoteCount)
      ∧ (u ∉ q.upvotes →
          (upvoteToggle u q).upvotes = q.upvotes ++ [u]
          ∧ (upvoteToggle u q).upvoteCount = q.upvoteCount + 1)
      ∧ (∀ qid s, lookupId qid s.qas = some q →
          (qaUpvote u qid s).1.qas = updateId qid (fun _ => upvoteToggle u q) s.qas) := by
  intro u q hc hd
  have route : ∀ qid s, lookupId qid s.qas = some q →
      (qaUpvote u qid s).1.qas = updateId qid (fun _ => upvoteToggle u q) s.qas := by
    intro qid s hlk
    unfold qaUpvote
    rw [hlk]
  by_cases hm : u ∈ q.upvotes
  · have h1 := upvoteToggle_mem u q hm
    have hlen := filter_ne_length_of_nodup_mem hd hm
    have hmem2 : u ∉ q.upvotes.filter (fun i => i ≠ u) := by
      intro hx
      have := List.of_mem_filter hx
      simp at this
    have h2 : upvoteToggle u (upvoteToggle u q) =
        { q with
          upvotes := q.upvotes.filter (fun i => i ≠ u) ++ [u]
          upvoteCount := q.upvoteCount - 1 + 1 } := by
      rw [h1, upvoteToggle_not_mem u _ hmem2]
    refine ⟨⟨?_, ?_⟩, ⟨?_, ?_⟩, ?_, route⟩
    · rw [h1]
      dsimp only
      rw [hc]
      omega
    · rw [h1]
      exact List.Nodup.filter _ hd
    · rw [h2]
      exact filter_ne_perm_of_nodup_mem hd hm
    · rw [h2]
      dsimp only
      omega
    · intro hx
      exact absurd hm hx
  · have h1 := upvoteToggle_not_mem u q hm
    have hmem2 : u ∈ q.upvotes ++ [u] := by simp
    have hfilter : (q.upvotes ++ [u]).filter (fun i => i ≠ u) = q.upvotes := by
      rw [List.filter_append, filter_ne_eq_self_of_not_mem hm]
      simp
    have h2 : upvoteToggle u (upvoteToggle u q) =
        { q with upvotes := q.upvotes, upvoteCount := q.upvoteCount + 1 - 1 } := by
      rw [h1, upvoteToggle_mem u _ hmem2]
      simp only []
      rw [hfilter]
    refine ⟨⟨?_, ?_⟩, ⟨?_, ?_⟩, ?_, route⟩
    · rw [h1]
      dsimp only
      rw [hc]
      simp [List.length_append]
    · rw [h1]
      dsimp only
      rw [List.nodup_append]
      refine ⟨hd, List.nodup_singleton u, ?_⟩
      intro a ha hb
      simp at hb
      exact hm (hb ▸ ha)
    · rw [h2]
    · rw [h2]
      dsimp only
      omega
    · intro _
      rw [h1]
      exact ⟨rfl, rfl⟩

/-- C4 witness: the toggle law applied to the concrete question with one
existing upvote by user 3, toggled twice by user 2. -/
theorem crowd_c4_witness :
    (upvoteToggle 2 (upvoteToggle 2 exQA)).upvotes.Perm exQA.upvotes ∧
      (upvoteToggle 2 (upvoteToggle 2 exQA)).upvoteCount = exQA.upvoteCount :=
  (crowd_c4_upvote_toggle 2 exQA (by decide) (by decide)).2.1

theorem respondIcebreaker_cases (now u ibId : Nat) (resp : String) (s : SystemState) :
    (∃ c m, respondIcebreaker now u ibId resp s = (s, [], .err c m)) ∨
    (∃ ib, lookupId ibId s.icebreakers = some ib ∧
      ib.responses.any (fun r => r.userId = u) = false ∧
      respondIcebreaker now u ibId resp s =
        ({ s with icebreakers := updateId ibId (fun _ =>
            { ib with
              responses := ib.responses ++
                [{ userId := u, response := strTrim resp, timestamp := now, likes := [] }]
              responseCount := ib.responseCount + 1 }) s.icebreakers },
         [.icebreakerResponse ibId u (strTrim resp) (ib.responseCount + 1)],
         .ok "Response added successfully")) := by
  unfold respondIcebreaker
  by_cases he : strTrim resp = ""
  · rw [if_pos he]
    exact Or.inl ⟨400, "Response is required", rfl⟩
  · rw [if_neg he]
    cases hl : lookupId ibId s.icebreakers with
    | none => exact Or.inl ⟨404, "Icebreaker not found", rfl⟩
    | some ib =>
      dsimp only
      by_cases hr : ib.responses.any (fun r => r.userId = u) = true
      · rw [if_pos hr]
        exact Or.inl ⟨400, "You have already responded to this question", rfl⟩
      · rw [if_neg hr]
        exact Or.inr ⟨ib, rfl, by simpa using hr, rfl⟩

theorem icebreakersCounted_respond (now u ibId : Nat) (resp : String) (s : SystemState)
    (h : IcebreakersCounted s) :
    IcebreakersCounted (respondIcebreaker now u ibId resp s).1 := by
  rcases respondIcebreaker_cases now u ibId resp s with ⟨c, m, hv⟩ | ⟨ib, hl, _, hv⟩
  · rw [hv]
    exact h
  · rw [hv]
    intro id ib2 hb
    by_cases hid : id = ibId
    · subst hid
      rw [lookupId_updateId_self, hl, Option.map_some'] at hb
      cases hb
      have := h id ib hl
      simp [List.length_append, this]
    · rw [lookupId_updateId_ne (fun hh => hid hh.symm)] at hb
      exact h id ib2 hb

theorem icebreakersCounted_create (q : String) (s : SystemState)
    (h : IcebreakersCounted s) :
    IcebreakersCounted (createIcebreaker q s).1 := by
  unfold createIcebreaker
  by_cases he : strTrim q = ""
  · rw [if_pos he]
    exact h
  · rw [if_neg he]
    by_cases h2 : isLiveNow s.liveEvent = false
    · rw [if_pos h2]
      exact h
    · rw [if_neg h2]
      intro id ib hb
      rw [lookupId_append_single] at hb
      cases hl : lookupId id s.icebreakers with
      | some x =>
        rw [hl] at hb
        cases hb
        exact h id _ hl
      | none =>
        rw [hl] at hb
        by_cases hid : s.nextId = id
        · rw [if_pos hid] at hb
          cases hb
          rfl
        · rw [if_neg hid] at hb
          cases hb

/-- C7 (confirmed).  Icebreaker creation and every respond request preserve
responseCount == len(responses) for every icebreaker in the state, and a
respond attempt by a user who already has a response on the icebreaker (with a
non-empty trimmed response, so the duplicate check is reached) is rejected with
HTTP 400 "You have already responded to this question", returning the input
state unchanged. -/
theorem crowd_c7_icebreaker_responses :
    (∀ q s, IcebreakersCounted s → IcebreakersCounted (createIcebreaker q s).1)
    ∧ (∀ now u ibId resp s, IcebreakersCounted s →
        IcebreakersCounted (respondIcebreaker now u ibId resp s).1)
    ∧ (∀ now u ibId resp s ib, strTrim resp ≠ "" →
        lookupId ibId s.icebreakers = some ib →
        ib.responses.any (fun r => r.userId = u) = true →
        respondIcebreaker now u ibId resp s =
          (s, [], .err 400 "You have already responded to this question")) := by
  refine ⟨icebreakersCounted_create, icebreakersCounted_respond, ?_⟩
  intro now u ibId resp s ib he hl hr
  unfold respondIcebreaker
  rw [if_neg he, hl]
  dsimp only
  rw [if_pos hr]

/-- C7 witness: the duplicate response by user 7 on the concrete icebreaker is
rejected and the state is returned unchanged. -/
theorem crowd_c7_witness :
    respondIcebreaker 9 7 0 "again" exIceState =
      (exIceState, [], .err 400 "You have already responded to this question") :=
  crowd_c7_icebreaker_responses.2.2 9 7 0 "again" exIceState exIcebreaker
    (by decide) rfl rfl

theorem if_lt_eq_max (a b : Nat) : (if a < b then b else a) = max a b := by
  rcases Nat.lt_or_ge a b with h | h
  · rw [if_pos h, Nat.max_eq_right (Nat.le_of_lt h)]
  · rw [if_neg (Nat.not_lt.mpr h), Nat.max_eq_left h]

/-- C2 (amended).  On a tick, for a LiveEvent with status live: when the
fetched member count equals the stored activeUsers the tick changes nothing
and broadcasts nothing (even when the stored totalInteractions disagrees with
the interaction aggregate); when it differs, the tick stores the count, raises
peakAttendance to the max of its old value and the count, leaves
totalInteractions untouched, and broadcasts metrics_update carrying the stored
(not recomputed) totalInteractions.  The loop never recomputes
totalInteractions; that recomputation (chat + poll votes + Q&A + photos) is
performed only by updateMetrics, which the routes invoke when ending the
event. -/
theorem crowd_c2_metrics_tick :
    ∀ s le, s.liveEvent = some le → le.status = .live →
      ((s.members.length = le.metrics.activeUsers → metricsTick s = (s, [])) ∧
       (s.members.length ≠ le.metrics.activeUsers →
         ∃ le1, (metricsTick s).1 = { s with liveEvent := some le1 }
           ∧ le1.metrics.activeUsers = s.members.length
           ∧ le1.metrics.peakAttendance =
               max le.metrics.peakAttendance s.members.length
           ∧ le1.metrics.totalInteractions = le.metrics.totalInteractions
           ∧ (metricsTick s).2 = [.metricsUpdate s.members.length
               le1.metrics.peakAttendance le.metrics.totalInteractions])) := by
  intro s le hse hst
  unfold metricsTick
  rw [hse]
  dsimp only
  rw [if_pos hst]
  constructor
  · intro heq
    rw [if_neg (by simp [heq])]
  · intro hne
    rw [if_pos hne]
    refine ⟨_, rfl, rfl, ?_, rfl, rfl⟩
    dsimp only
    exact if_lt_eq_max _ _

/-- C2 counterexample.  A live room with one chat message, stored
totalInteractions 0, and a member count matching the stored activeUsers: the
tick leaves the state untouched and broadcasts nothing, although the claim
requires it to recompute totalInteractions (the aggregate is 1, the stored
value 0) and to persist and broadcast the change. -/
theorem crowd_c2_counterexample :
    statusOf exStaleState = .live
    ∧ metricsTick exStaleState = (exStaleState, [])
    ∧ storedInteractionsOf exStaleState = 0
    ∧ interactionAgg exStaleState = 1 :=
  ⟨rfl, rfl, rfl, rfl⟩

/-- C2 witness: the tick on a live room whose member count (1) differs from
the stored activeUsers (0) stores the count, raises the peak, and broadcasts
the stale totalInteractions. -/
theorem crowd_c2_witness :
    ∃ le1, (metricsTick exTickState).1 = { exTickState with liveEvent := some le1 }
      ∧ le1.metrics.activeUsers = exTickState.members.length
      ∧ le1.metrics.peakAttendance =
          max exLiveEventLive.metrics.peakAttendance exTickState.members.length
      ∧ le1.metrics.totalInteractions = exLiveEventLive.metrics.totalInteractions
      ∧ (metricsTick exTickState).2 = [.metricsUpdate exTickState.members.length
          le1.metrics.peakAttendance exLiveEventLive.metrics.totalInteractions] :=
  (crowd_c2_metrics_tick exTickState exLiveEventLive rfl rfl).2 (by decide)

theorem votePoll_liveEvent_indep (now u pid : Nat) (o : Option (List Int))
    (s : SystemState) (le2 : Option LiveEvent) :
    votePoll now u pid o { s with liveEvent := le2 } =
      ({ (votePoll now u pid o s).1 with liveEvent := le2 },
       (votePoll now u pid o s).2.1, (votePoll now u pid o s).2.2) := by
  unfold votePoll
  cases o with
  | none => rfl
  | some idxs =>
    dsimp only
    by_cases he : idxs = []
    · rw [if_pos he, if_pos he]
    · rw [if_neg he, if_neg he]
      cases hl : lookupId pid s.polls with
      | none => rfl
      | some p =>
        dsimp only
        by_cases h1 : p.isActive = false ∨ pollExpired now p = true
        · rw [if_pos h1, if_pos h1]
        · rw [if_neg h1, if_neg h1]
          by_cases h2 : hasVotedIn u p = true
          · rw [if_pos h2, if_pos h2]
          · rw [if_neg h2, if_neg h2]
            by_cases h3 :
                (idxs.any fun i => i < 0 ∨ (p.options.length : Int) - 1 < i) = true
            · rw [if_pos h3, if_pos h3]
            · rw [if_neg h3, if_neg h3]

/-- C3 (amended).  Starting an event that is already live fails with HTTP 400
"Event is already live" and changes nothing; a successful start (event absent,
scheduled, or previously ended) sets status live and startedAt and broadcasts
event_started.  But ended is not terminal: once status is ended, only the
operations that look the event up with status live are rejected (chat send,
poll / Q&A question / icebreaker creation, photo share, all with unchanged
state and no broadcast), while vote_poll never consults the LiveEvent at all
(its outcome is identical under any liveEvent value, so votes on an ended
event's polls are still accepted), and start itself succeeds on an ended event,
flipping it back to live. -/
theorem crowd_c3_lifecycle :
    (∀ now ls s, isLiveNow s.liveEvent = true →
      startLive now true ls s = (s, [], .err 400 "Event is already live"))
    ∧ (∀ now ls s, isLiveNow s.liveEvent = false →
      ∃ le1, startLive now true ls s =
          ({ s with liveEvent := some le1 }, [.eventStarted now],
           .ok "Live event started successfully")
        ∧ le1.status = .live ∧ le1.startedAt = some now)
    ∧ (∀ s le, s.liveEvent = some le → le.status = .ended →
        (∀ u m mt, ∃ c msg, sendChat u m mt s = (s, [], .err c msg))
        ∧ (∀ now q opts am e, ∃ c msg, createPoll now q opts am e s = (s, [], .err c msg))
        ∧ (∀ u q, ∃ c msg, qaAsk u q s = (s, [], .err c msg))
        ∧ (∀ q, ∃ c msg, createIcebreaker q s = (s, [], .err c msg))
        ∧ (∀ u url cap tags, ∃ c msg, sharePhoto u url cap tags s = (s, [], .err c msg)))
    ∧ (∀ now u pid o s le2,
        votePoll now u pid o { s with liveEvent := le2 } =
          ({ (votePoll now u pid o s).1 with liveEvent := le2 },
           (votePoll now u pid o s).2.1, (votePoll now u pid o s).2.2)) := by
  refine ⟨?_, ?_, ?_, votePoll_liveEvent_indep⟩
  · intro now ls s hlive
    unfold startLive
    rw [if_neg (by simp), if_pos hlive]
  · intro now ls s hlive
    unfold startLive
    rw [if_neg (by simp), if_neg (by simp [hlive])]
    exact ⟨_, rfl, rfl, rfl⟩
  · intro s le hse hst
    have hlive : isLiveNow s.liveEvent = false := by
      rw [hse]
      simp [isLiveNow, hst]
    refine ⟨?_, ?_, ?_, ?_, ?_⟩
    · intro u m mt
      unfold sendChat
      by_cases he : strTrim m = ""
      · exact ⟨400, "Message is required", by rw [if_pos he]⟩
      · exact ⟨404, "Live event not found or not active",
          by rw [if_neg he, if_pos hlive]⟩
    · intro now q opts am e
      unfold createPoll
      cases opts with
      | none => exact ⟨400, "Question and at least 2 options are required", rfl⟩
      | some os =>
        dsimp only
        by_cases h1 : q = "" ∨ os.length < 2
        · exact ⟨400, "Question and at least 2 options are required", by rw [if_pos h1]⟩
        · exact ⟨404, "Live event not found or not active",
            by rw [if_neg h1, if_pos hlive]⟩
    · intro u q
      unfold qaAsk
      by_cases he : strTrim q = ""
      · exact ⟨400, "Question is required", by rw [if_pos he]⟩
      · exact ⟨404, "Live event not found or not active",
          by rw [if_neg he, if_pos hlive]⟩
    · intro q
      unfold createIcebreaker
      by_cases he : strTrim q = ""
      · exact ⟨400, "Question is required", by rw [if_pos he]⟩
      · exact ⟨404, "Live event not found or not active",
          by rw [if_neg he, if_pos hlive]⟩
    · intro u url cap tags
      unfold sharePhoto
      by_cases he : url = ""
      · exact ⟨400, "Image URL is required", by rw [if_pos he]⟩
      · refine ⟨404, "Live event not found or not active", ?_⟩
        rw [if_neg he, hse]
        dsimp only
        rw [if_pos (by simp [hst])]

/-- C3 counterexample.  On a room whose LiveEvent has status ended, a vote on
its still-active poll is accepted, and start succeeds and flips the event back
to live, contradicting the claimed terminality of ended. -/
theorem crowd_c3_counterexample :
    statusOf exEndedState = .ended
    ∧ (votePoll 5 7 0 (some [0]) exEndedState).2.2 = .ok "Vote recorded successfully"
    ∧ (startLive 9 true none exEndedState).2.2 = .ok "Live event started successfully"
    ∧ statusOf (startLive 9 true none exEndedState).1 = .live :=
  ⟨rfl, rfl, rfl, rfl⟩

/-- C3 witness: starting the already-live concrete room yields the conflict
error with the state unchanged. -/
theorem crowd_c3_witness :
    startLive 9 true none exVoteState =
      (exVoteState, [], .err 400 "Event is already live") :=
  crowd_c3_lifecycle.1 9 none exVoteState rfl

theorem peakOf_joinEvent_mono (c : Nat) (s : SystemState) :
    peakOf s ≤ peakOf (joinEvent c s).1 := by
  unfold joinEvent
  cases hle : s.liveEvent with
  | none => simp [peakOf, hle]
  | some le =>
    dsimp only
    by_cases hst : le.status = .live
    · rw [if_pos hst]
      simp only [peakOf, hle]
      rw [if_lt_eq_max]
      exact Nat.le_max_left _ _
    · rw [if_neg hst]
      simp [peakOf, hle]

theorem peakOf_leaveEvent (c : Nat) (s : SystemState) :
    peakOf (leaveEvent c s).1 = peakOf s := by
  unfold leaveEvent
  cases hle : s.liveEvent with
  | none => simp [peakOf, hle]
  | some le =>
    dsimp only
    by_cases hst : le.status = .live
    · rw [if_pos hst]
      simp [peakOf, hle]
    · rw [if_neg hst]
      simp [peakOf, hle]

theorem peakOf_disconnectEvent (c : Nat) (b : Bool) (s : SystemState) :
    peakOf (disconnectEvent c b s).1 = peakOf s := by
  unfold disconnectEvent
  by_cases hb : b = false
  · rw [if_pos hb]
    simp [peakOf]
  · rw [if_neg hb]
    cases hle : s.liveEvent with
    | none => simp [peakOf, hle]
    | some le =>
      dsimp only
      by_cases hst : le.status = .live
      · rw [if_pos hst]
        simp [peakOf, hle]
      · rw [if_neg hst]
        simp [peakOf, hle]

theorem peakOf_metricsTick_mono (s : SystemState) :
    peakOf s ≤ peakOf (metricsTick s).1 := by
  unfold metricsTick
  cases hle : s.liveEvent with
  | none => simp [peakOf, hle]
  | some le =>
    dsimp only
    by_cases hst : le.status = .live
    · rw [if_pos hst]
      by_cases hc : s.members.length ≠ le.metrics.activeUsers
      · rw [if_pos hc]
        simp only [peakOf, hle]
        rw [if_lt_eq_max]
        exact Nat.le_max_left _ _
      · rw [if_neg hc]
    · rw [if_neg hst]

/-- C8 (amended).  No join, leave, disconnect, or metrics tick ever decreases
peakAttendance (leave and disconnect leave it exactly unchanged), so it is
monotonically non-decreasing; a join while live and a tick that records a
changed count raise it to at least the activeUsers value they record.  But
peakAttendance does not always equal the running maximum of observed
activeUsers: leave and disconnect store activeUsers without raising it (and a
tick that observes an unchanged count does not touch it), so after members
join before the event goes live, the stored activeUsers value can exceed
peakAttendance — see the counterexample chain. -/
theorem crowd_c8_peak_monotone :
    (∀ c s, peakOf s ≤ peakOf (joinEvent c s).1)
    ∧ (∀ c s, peakOf (leaveEvent c s).1 = peakOf s)
    ∧ (∀ c b s, peakOf (disconnectEvent c b s).1 = peakOf s)
    ∧ (∀ s, peakOf s ≤ peakOf (metricsTick s).1)
    ∧ (∀ c s le, s.liveEvent = some le → le.status = .live →
        activeUsersOf (joinEvent c s).1 ≤ peakOf (joinEvent c s).1)
    ∧ (∀ s le, s.liveEvent = some le → le.status = .live →
        s.members.length ≠ le.metrics.activeUsers →
        s.members.length ≤ peakOf (metricsTick s).1) := by
  refine ⟨peakOf_joinEvent_mono, peakOf_leaveEvent, peakOf_disconnectEvent,
    peakOf_metricsTick_mono, ?_, ?_⟩
  · intro c s le hse hst
    unfold joinEvent
    rw [hse]
    dsimp only
    rw [if_pos hst]
    simp only [activeUsersOf, peakOf]
    rw [if_lt_eq_max]
    exact Nat.le_max_right _ _
  · intro s le hse hst hc
    unfold metricsTick
    rw [hse]
    dsimp only
    rw [if_pos hst, if_pos hc]
    simp only [peakOf]
    rw [if_lt_eq_max]
    exact Nat.le_max_right _ _

/-- C8 counterexample.  Two connections join while the event is scheduled (no
metrics update runs), the event starts, and one connection leaves while live:
leave stores activeUsers = 1 but never raises peakAttendance, which stays 0 —
strictly below the running maximum of the observed activeUsers values (1), so
peakAttendance does not equal that running maximum. -/
theorem crowd_c8_counterexample :
    statusOf exChain4 = .live
    ∧ activeUsersOf exChain4 = 1
    ∧ peakOf exChain4 = 0 :=
  ⟨rfl, rfl, rfl⟩

/-- C8 witness: a join on the concrete live room records an activeUsers value
that peakAttendance is raised to cover. -/
theorem crowd_c8_witness :
    activeUsersOf (joinEvent 3 exVoteState).1 ≤ peakOf (joinEvent 3 exVoteState).1 :=
  crowd_c8_peak_monotone.2.2.2.2.1 3 exVoteState exLiveEventLive rfl rfl

/-- C6 (amended).  A shared photo is stored with status pending when
moderationRequired is true and approved otherwise; new_photo is broadcast only
in the approved case (a pending photo's share emits no room broadcast at all).
However, like_photo broadcasts a photo_like payload naming the photo's id and
its updated likeCount for every stored photo regardless of its status, so a
non-approved photo's id does appear in a room broadcast payload (only its
content — imageUrl, caption — stays off the broadcast path). -/
theorem crowd_c6_photo_moderation :
    (∀ u url cap tags s le, s.liveEvent = some le → le.status = .live →
      url ≠ "" → lookupId s.nextId s.photos = none →
      ∃ ph, lookupId s.nextId (sharePhoto u url cap tags s).1.photos = some ph
        ∧ ph.status =
            (if le.liveSettings.moderationRequired then PhotoStatus.pending
             else PhotoStatus.approved)
        ∧ (le.liveSettings.moderationRequired = true →
            (sharePhoto u url cap tags s).2.1 = [])
        ∧ (le.liveSettings.moderationRequired = false →
            (sharePhoto u url cap tags s).2.1 =
              [.newPhoto s.nextId url (strTrim cap) u 0]))
    ∧ (∀ u pid s ph, lookupId pid s.photos = some ph →
        (likePhoto u pid s).2.1 =
          [.photoLike pid (likeToggle u ph).likeCount (decide (u ∉ ph.likes))]) := by
  constructor
  · intro u url cap tags s le hse hst hurl hfresh
    unfold sharePhoto
    rw [if_neg hurl, hse]
    dsimp only
    rw [if_neg (by simp [hst])]
    by_cases hmod : le.liveSettings.moderationRequired
    · rw [if_pos hmod]
      refine ⟨mkPhoto u url cap tags .pending, ?_, ?_, ?_, ?_⟩
      · dsimp only
        rw [lookupId_append_single, hfresh, if_pos rfl]
        rfl
      · rfl
      · intro _
        dsimp only
        rw [if_neg (by simp)]
      · intro hmf
        rw [hmod] at hmf
        cases hmf
    · rw [if_neg hmod]
      refine ⟨mkPhoto u url cap tags .approved, ?_, ?_, ?_, ?_⟩
      · dsimp only
        rw [lookupId_append_single, hfresh, if_pos rfl]
        rfl
      · rfl
      · intro hmt
        exact absurd hmt hmod
      · intro _
        dsimp only
        rw [if_pos rfl]
  · intro u pid s ph hl
    unfold likePhoto
    rw [hl]

/-- C6 counterexample.  With moderationRequired on, sharing a photo stores it
as pending and broadcasts nothing, but liking that pending photo immediately
broadcasts a photo_like payload naming the pending photo's id — a photo whose
status is not approved does appear in a room broadcast payload. -/
theorem crowd_c6_counterexample :
    (sharePhoto 7 "p.jpg" "" [] exModState).2.1 = []
    ∧ (match lookupId 0 (sharePhoto 7 "p.jpg" "" [] exModState).1.photos with
       | some ph => ph.status
       | none => PhotoStatus.approved) = .pending
    ∧ (likePhoto 8 0 (sharePhoto 7 "p.jpg" "" [] exModState).1).2.1 =
        [.photoLike 0 1 true] :=
  ⟨rfl, rfl, rfl⟩

/-- C6 witness: the like clause applied to the concrete pending photo. -/
theorem crowd_c6_witness :
    (likePhoto 8 0 exPhotoState).2.1 = [.photoLike 0 1 true] :=
  crowd_c6_photo_moderation.2 8 0 exPhotoState exPendingPhoto rfl

theorem jsRound100_eq_round (v t : Nat) (ht : 0 < t) :
    ((jsRound100 v t : Nat) : ℤ) = round ((100 * (v : ℚ)) / (t : ℚ)) := by
  have htQ : (t : ℚ) ≠ 0 := by
    exact_mod_cast ht.ne'
  have h1 : (100 * (v : ℚ)) / (t : ℚ) + 1 / 2
      = ((200 * v + t : ℕ) : ℚ) / ((2 * t : ℕ) : ℚ) := by
    push_cast
    field_simp
    ring
  have hy : (0 : ℚ) ≤ ((200 * v + t : ℕ) : ℚ) / ((2 * t : ℕ) : ℚ) := by positivity
  rw [round_eq, h1, ← Int.natCast_floor_eq_floor hy, Nat.floor_div_eq_div]
  rfl

/-- C9 (confirmed).  In the pollResults computation, every entry's percentage
is 0 when totalVotes is 0 (the guard prevents any division by zero) and is
otherwise the nearest integer to optionVotes / totalVotes * 100 (Math.round,
ties rounding up, i.e. the Mathlib round of the exact rational); and every
poll_vote broadcast emitted by an accepted vote carries exactly the
pollResults of the saved poll together with its totalVotes, which is then
always positive. -/
theorem crowd_c9_percentages :
    (∀ p r, r ∈ pollResultsOf p →
      (p.totalVotes = 0 → r.percentage = 0)
      ∧ (0 < p.totalVotes →
        (r.percentage : ℤ) = round ((100 * (r.voteCount : ℚ)) / (p.totalVotes : ℚ))))
    ∧ (∀ now u pid idxs s st bs rr,
        votePoll now u pid (some idxs) s = (st, bs, rr) →
        rr = .ok "Vote recorded successfully" →
        ∃ p1, lookupId pid st.polls = some p1
          ∧ bs = [.pollVote pid (pollResultsOf p1) p1.totalVotes]
          ∧ 0 < p1.totalVotes) := by
  constructor
  · intro p r hr
    rcases List.mem_map.mp hr with ⟨o, ho, hre⟩
    constructor
    · intro h0
      rw [← hre]
      dsimp only
      rw [if_neg (by omega)]
    · intro hpos
      rw [← hre]
      dsimp only
      rw [if_pos hpos]
      exact jsRound100_eq_round o.voteCount p.totalVotes hpos
  · intro now u pid idxs s st bs rr hv hrr
    rcases votePoll_cases now u pid (some idxs) s with ⟨c, m, he⟩ |
      ⟨idxs2, p, ho, hne, hl, _, _, _, _, hacc⟩
    · rw [hv] at he
      cases he
      cases hrr
    · cases ho
      rw [hv] at hacc
      cases hacc
      refine ⟨List.foldl (applyVoteIdx u now) p idxs, ?_, rfl, ?_⟩
      · dsimp only
        rw [lookupId_updateId_self, hl, Option.map_some']
      · rw [foldl_applyVoteIdx_totalVotes]
        have := List.length_pos.mpr hne
        omega

/-- C9 witness: the percentage clause applied to the concrete voted poll
(option A with 1 of 1 votes reads 100 percent, the rounded exact ratio). -/
theorem crowd_c9_witness :
    ((({ text := "A", voteCount := 1, percentage := 100 } : PollResult).percentage : ℤ))
      = round ((100 *
          (({ text := "A", voteCount := 1, percentage := 100 } : PollResult).voteCount : ℚ))
        / (exVotedPoll.totalVotes : ℚ)) :=
  (crowd_c9_percentages.1 exVotedPoll _ (by decide)).2 (by decide)

theorem isLiveNow_map_setFlags (cF pF qF phF : Bool) (o : Option LiveEvent) :
    isLiveNow (o.map (fun le =>
      { le with liveSettings := setFlags cF pF qF phF le.liveSettings })) = isLiveNow o := by
  cases o with
  | none => rfl
  | some le => rfl

theorem votePoll_preserves_liveEvent (now u pid : Nat) (o : Option (List Int))
    (s : SystemState) :
    (votePoll now u pid o s).1.liveEvent = s.liveEvent := by
  rcases votePoll_cases now u pid o s with ⟨c, m, hv⟩ | ⟨idxs, pp, _, _, _, _, _, _, _, hv⟩
  · rw [hv]
  · rw [hv]

theorem c10_votePoll (cF pF qF phF : Bool) (now u pid : Nat) (o : Option (List Int))
    (s : SystemState) :
    votePoll now u pid o (flagVariant cF pF qF phF s) =
      (flagVariant cF pF qF phF (votePoll now u pid o s).1,
       (votePoll now u pid o s).2.1, (votePoll now u pid o s).2.2) := by
  have h := votePoll_liveEvent_indep now u pid o s (flagMap cF pF qF phF s.liveEvent)
  have h2 : flagVariant cF pF qF phF s =
      { s with liveEvent := flagMap cF pF qF phF s.liveEvent } := rfl
  have h3 : flagVariant cF pF qF phF (votePoll now u pid o s).1 =
      { (votePoll now u pid o s).1 with
        liveEvent := flagMap cF pF qF phF s.liveEvent } := by
    unfold flagVariant flagMap
    rw [votePoll_preserves_liveEvent]
  rw [h2, h, h3]

theorem c10_qaUpvote (cF pF qF phF : Bool) (u qid : Nat) (s : SystemState) :
    qaUpvote u qid (flagVariant cF pF qF phF s) =
      (flagVariant cF pF qF phF (qaUpvote u qid s).1,
       (qaUpvote u qid s).2.1, (qaUpvote u qid s).2.2) := by
  unfold qaUpvote
  simp only [flagVariant]
  cases hl : lookupId qid s.qas with
  | none => rfl
  | some q => rfl

theorem c10_likePhoto (cF pF qF phF : Bool) (u pid : Nat) (s : SystemState) :
    likePhoto u pid (flagVariant cF pF qF phF s) =
      (flagVariant cF pF qF phF (likePhoto u pid s).1,
       (likePhoto u pid s).2.1, (likePhoto u pid s).2.2) := by
  unfold likePhoto
  simp only [flagVariant]
  cases hl : lookupId pid s.photos with
  | none => rfl
  | some ph => rfl

theorem c10_respondIcebreaker (cF pF qF phF : Bool) (now u ibId : Nat) (resp : String)
    (s : SystemState) :
    respondIcebreaker now u ibId resp (flagVariant cF pF qF phF s) =
      (flagVariant cF pF qF phF (respondIcebreaker now u ibId resp s).1,
       (respondIcebreaker now u ibId resp s).2.1,
       (respondIcebreaker now u ibId resp s).2.2) := by
  unfold respondIcebreaker
  simp only [flagVariant]
  by_cases he : strTrim resp = ""
  · rw [if_pos he, if_pos he]
  · rw [if_neg he, if_neg he]
    cases hl : lookupId ibId s.icebreakers with
    | none => rfl
    | some ib =>
      dsimp only
      by_cases hr : ib.responses.any (fun r => r.userId = u) = true
      · rw [if_pos hr, if_pos hr]
      · rw [if_neg hr, if_neg hr]

theorem c10_qaAnswer (cF pF qF phF : Bool) (now u : Nat) (isOwner : Bool)
    (qid : Nat) (ans : String) (s : SystemState) :
    qaAnswer now u isOwner qid ans (flagVariant cF pF qF phF s) =
      (flagVariant cF pF qF phF (qaAnswer now u isOwner qid ans s).1,
       (qaAnswer now u isOwner qid ans s).2.1,
       (qaAnswer now u isOwner qid ans s).2.2) := by
  unfold qaAnswer
  simp only [flagVariant]
  by_cases he : strTrim ans = ""
  · rw [if_pos he, if_pos he]
  · rw [if_neg he, if_neg he]
    by_cases ho : isOwner = false
    · rw [if_pos ho, if_pos ho]
    · rw [if_neg ho, if_neg ho]
      cases hl : lookupId qid s.qas with
      | none => rfl
      | some q => rfl

theorem c10_sendChat (cF pF qF phF : Bool) (u : Nat) (m : String) (mt : MessageType)
    (s : SystemState) :
    sendChat u m mt (flagVariant cF pF qF phF s) =
      (flagVariant cF pF qF phF (sendChat u m mt s).1,
       (sendChat u m mt s).2.1, (sendChat u m mt s).2.2) := by
  unfold sendChat
  simp only [flagVariant]
  by_cases he : strTrim m = ""
  · rw [if_pos he, if_pos he]
  · rw [if_neg he, if_neg he]
    rw [isLiveNow_map_setFlags]
    by_cases hL : isLiveNow s.liveEvent = false
    · rw [if_pos hL, if_pos hL]
    · rw [if_neg hL, if_neg hL]

theorem c10_qaAsk (cF pF qF phF : Bool) (u : Nat) (q : String) (s : SystemState) :
    qaAsk u q (flagVariant cF pF qF phF s) =
      (flagVariant cF pF qF phF (qaAsk u q s).1,
       (qaAsk u q s).2.1, (qaAsk u q s).2.2) := by
  unfold qaAsk
  simp only [flagVariant]
  by_cases he : strTrim q = ""
  · rw [if_pos he, if_pos he]
  · rw [if_neg he, if_neg he]
    rw [isLiveNow_map_setFlags]
    by_cases hL : isLiveNow s.liveEvent = false
    · rw [if_pos hL, if_pos hL]
    · rw [if_neg hL, if_neg hL]

theorem c10_createIcebreaker (cF pF qF phF : Bool) (q : String) (s : SystemState) :
    createIcebreaker q (flagVariant cF pF qF phF s) =
      (flagVariant cF pF qF phF (createIcebreaker q s).1,
       (createIcebreaker q s).2.1, (createIcebreaker q s).2.2) := by
  unfold createIcebreaker
  simp only [flagVariant]
  by_cases he : strTrim q = ""
  · rw [if_pos he, if_pos he]
  · rw [if_neg he, if_neg he]
    rw [isLiveNow_map_setFlags]
    by_cases hL : isLiveNow s.liveEvent = false
    · rw [if_pos hL, if_pos hL]
    · rw [if_neg hL, if_neg hL]

theorem c10_createPoll (cF pF qF phF : Bool) (now : Nat) (q : String)
    (opts : Option (List String)) (am : Option Bool) (e : Option Nat)
    (s : SystemState) :
    createPoll now q opts am e (flagVariant cF pF qF phF s) =
      (flagVariant cF pF qF phF (createPoll now q opts am e s).1,
       (createPoll now q opts am e s).2.1, (createPoll now q opts am e s).2.2) := by
  unfold createPoll
  simp only [flagVariant]
  cases opts with
  | none => rfl
  | some os =>
    dsimp only
    by_cases h1 : q = "" ∨ os.length < 2
    · rw [if_pos h1, if_pos h1]
    · rw [if_neg h1, if_neg h1]
      rw [isLiveNow_map_setFlags]
      by_cases hL : isLiveNow s.liveEvent = false
      · rw [if_pos hL, if_pos hL]
      · rw [if_neg hL, if_neg hL]

theorem c10_sharePhoto (cF pF qF phF : Bool) (u : Nat) (url cap : String)
    (tags : List String) (s : SystemState) :
    sharePhoto u url cap tags (flagVariant cF pF qF phF s) =
      (flagVariant cF pF qF phF (sharePhoto u url cap tags s).1,
       (sharePhoto u url cap tags s).2.1, (sharePhoto u url cap tags s).2.2) := by
  unfold sharePhoto
  simp only [flagVariant]
  by_cases he : url = ""
  · rw [if_pos he, if_pos he]
  · rw [if_neg he, if_neg he]
    cases hle : s.liveEvent with
    | none => simp [hle]
    | some le =>
      dsimp only [Option.map_some']
      simp only [setFlags]
      by_cases hst : le.status ≠ .live
      · rw [if_pos hst, if_pos hst]
        simp [hle, setFlags]
      · rw [if_neg hst, if_neg hst]
        simp [hle, setFlags]

/-- C10 (confirmed).  None of the interaction operations reads enableChat,
enablePolls, enableQA, or enablePhotoSharing: running any of poll creation,
poll voting, Q&A ask / upvote / answer, icebreaker creation / respond, photo
share / like, or chat send on a state whose four enable flags are replaced by
arbitrary values yields the identical HTTP result and identical room
broadcasts, and a final state identical except for carrying the same replaced
flags — so moderationRequired (preserved by the replacement) is the only
settings field any of these operations' behaviour depends on. -/
theorem crowd_c10_flags_unread :
    (∀ cF pF qF phF now q opts am e s,
      createPoll now q opts am e (flagVariant cF pF qF phF s) =
        (flagVariant cF pF qF phF (createPoll now q opts am e s).1,
         (createPoll now q opts am e s).2.1, (createPoll now q opts am e s).2.2))
    ∧ (∀ cF pF qF phF now u pid o s,
      votePoll now u pid o (flagVariant cF pF qF phF s) =
        (flagVariant cF pF qF phF (votePoll now u pid o s).1,
         (votePoll now u pid o s).2.1, (votePoll now u pid o s).2.2))
    ∧ (∀ cF pF qF phF u q s,
      qaAsk u q (flagVariant cF pF qF phF s) =
        (flagVariant cF pF qF phF (qaAsk u q s).1,
         (qaAsk u q s).2.1, (qaAsk u q s).2.2))
    ∧ (∀ cF pF qF phF u qid s,
      qaUpvote u qid (flagVariant cF pF qF phF s) =
        (flagVariant cF pF qF phF (qaUpvote u qid s).1,
         (qaUpvote u qid s).2.1, (qaUpvote u qid s).2.2))
    ∧ (∀ cF pF qF phF now u isOwner qid ans s,
      qaAnswer now u isOwner qid ans (flagVariant cF pF qF phF s) =
        (flagVariant cF pF qF phF (qaAnswer now u isOwner qid ans s).1,
         (qaAnswer now u isOwner qid ans s).2.1,
         (qaAnswer now u isOwner qid ans s).2.2))
    ∧ (∀ cF pF qF phF q s,
      createIcebreaker q (flagVariant cF pF qF phF s) =
        (flagVariant cF pF qF phF (createIcebreaker q s).1,
         (createIcebreaker q s).2.1, (createIcebreaker q s).2.2))
    ∧ (∀ cF pF qF phF now u ibId resp s,
      respondIcebreaker now u ibId resp (flagVariant cF pF qF phF s) =
        (flagVariant cF pF qF phF (respondIcebreaker now u ibId resp s).1,
         (respondIcebreaker now u ibId resp s).2.1,
         (respondIcebreaker now u ibId resp s).2.2))
    ∧ (∀ cF pF qF phF u url cap tags s,
      sharePhoto u url cap tags (flagVariant cF pF qF phF s) =
        (flagVariant cF pF qF phF (sharePhoto u url cap tags s).1,
         (sharePhoto u url cap tags s).2.1, (sharePhoto u url cap tags s).2.2))
    ∧ (∀ cF pF qF phF u pid s,
      likePhoto u pid (flagVariant cF pF qF phF s) =
        (flagVariant cF pF qF phF (likePhoto u pid s).1,
         (likePhoto u pid s).2.1, (likePhoto u pid s).2.2))
    ∧ (∀ cF pF qF phF u m mt s,
      sendChat u m mt (flagVariant cF pF qF phF s) =
        (flagVariant cF pF qF phF (sendChat u m mt s).1,
         (sendChat u m mt s).2.1, (sendChat u m mt s).2.2)) :=
  ⟨c10_createPoll, c10_votePoll, c10_qaAsk, c10_qaUpvote, c10_qaAnswer,
   c10_createIcebreaker, c10_respondIcebreaker, c10_sharePhoto, c10_likePhoto,
   c10_sendChat⟩

end Crowd
